import Mathlib

/-!
Shallow embedding of the authentication and session-identity subsystem of the
contacts-management backend (src/services/auth.py, src/api/auth.py,
src/repository/users.py), together with proofs of the behavioural properties
stated in the specification.

Time is modelled in integer epoch seconds (the JWT library serialises the
iat and exp claims to integer seconds).  A JWT string is modelled as the
payload it carries plus the secret it was signed with; two tokens are equal
exactly when their payloads and secrets are equal, matching the fact that
HS256 signing is deterministic, so equal payloads signed with the same
secret yield the same token string.
-/

set_option autoImplicit false

namespace ContactsAuth

/-- Epoch time in seconds. -/
abbrev Time := Int

/-- A JSON claim value: tokens of this application only carry string and
integer-timestamp claims. -/
inductive JVal where
  | s (v : String)
  | n (v : Int)
deriving DecidableEq

/-- A JWT claims payload, as a python dict: ordered association list with
unique keys (uniqueness is maintained by setKey below). -/
abbrev Payload := List (String × JVal)

/-- dict.get: first binding of the key, if any. -/
def lookupKey : Payload → String → Option JVal
  | [], _ => none
  | (k, v) :: rest, key => if k = key then some v else lookupKey rest key

/-- dict update with a single key: overwrite in place if present, else append
at the end (python dict semantics). -/
def setKey : Payload → String → JVal → Payload
  | [], key, v => [(key, v)]
  | (k, w) :: rest, key, v =>
      if k = key then (key, v) :: rest else (k, w) :: setKey rest key v

/-- python str() of a claim value (used for the redis key). -/
def pyStr : JVal → String
  | .s v => v
  | .n v => toString v

/-- An encoded JWT string: either a well-formed token determined by its
payload and signing secret, or a structurally malformed string. -/
inductive Token where
  | signed (payload : Payload) (secret : String)
  | malformed (raw : String)
deriving DecidableEq

/-- The payload carried by a token (empty for a malformed string). -/
def payloadOf : Token → Payload
  | .signed p _ => p
  | .malformed _ => []

/-- Process configuration (src/conf/config.py values used by the subsystem). -/
structure Config where
  JWT_SECRET : String
  JWT_EXPIRATION_SECONDS : Int
  JWT_REFRESH_EXPIRATION_SECONDS : Int
  REDIS_EXPIRATION_TIME : Int
deriving DecidableEq

/-- jose jwt.encode: sign the payload with the secret. -/
def jwtEncode (payload : Payload) (secret : String) : Token :=
  .signed payload secret

/-- jose jwt.decode at time now: fails (JWTError) on a malformed string or a
wrong secret; when an exp claim is present it must be an integer and not be
in the past (jose treats the token as expired exactly when exp is strictly
less than the current time); a payload without an exp claim is accepted
without an expiry check (the default decode options). -/
def jwtDecode (t : Token) (secret : String) (now : Time) : Option Payload :=
  match t with
  | .malformed _ => none
  | .signed p s =>
      if s = secret then
        match lookupKey p "exp" with
        | some (.n e) => if e < now then none else some p
        | some (.s _) => none
        | none => some p
      else none

/-- The claims payload built by create_token: copy the data, then set exp,
iat and token_type, in that order. -/
def tokenClaims (data : Payload) (token_type : String) (now : Time)
    (expires_delta : Int) : Payload :=
  setKey (setKey (setKey data "exp" (.n (now + expires_delta)))
      "iat" (.n now))
    "token_type" (.s token_type)

/-- src/services/auth.py create_token: build the claims payload and sign it
with the configured secret.  expires_delta is in seconds. -/
def create_token (data : Payload) (token_type : String) (now : Time)
    (expires_delta : Int) (secret : String) : Token :=
  jwtEncode (tokenClaims data token_type now expires_delta) secret

/-- The python truthiness test on the optional expires_delta argument:
None and 0 both fall back to the configured default. -/
def pickDelta (dflt : Int) : Option Int → Int
  | none => dflt
  | some d => if d = 0 then dflt else d

/-- src/services/auth.py create_access_token. -/
def create_access_token (cfg : Config) (data : Payload) (now : Time)
    (expires_delta : Option Int) : Token :=
  create_token data "access" now
    (pickDelta cfg.JWT_EXPIRATION_SECONDS expires_delta) cfg.JWT_SECRET

/-- src/services/auth.py create_refresh_token. -/
def create_refresh_token (cfg : Config) (data : Payload) (now : Time)
    (expires_delta : Option Int) : Token :=
  create_token data "refresh" now
    (pickDelta cfg.JWT_REFRESH_EXPIRATION_SECONDS expires_delta) cfg.JWT_SECRET

/-- src/services/auth.py create_email_token: copy the data, set iat and exp
(fixed seven-day validity), sign with the same secret; no token_type claim
is set. -/
def create_email_token (cfg : Config) (data : Payload) (now : Time) : Token :=
  jwtEncode (setKey (setKey data "iat" (.n now)) "exp" (.n (now + 604800)))
    cfg.JWT_SECRET

/-- src/database/models.py UserRole. -/
inductive UserRole where
  | USER
  | ADMIN
deriving DecidableEq

/-- src/database/models.py User: the persistent identity row. -/
structure User where
  id : Int
  username : String
  email : String
  hashed_password : String
  refresh_token : Option Token
  confirmed : Bool
  role : UserRole
  avatar : Option String
deriving DecidableEq

/-- src/schemas.py UserBase with contacts and groups excluded: the reduced
snapshot serialised into the redis cache. -/
structure UserSnapshot where
  id : Int
  username : String
  email : String
  avatar : Option String
  role : UserRole
deriving DecidableEq

/-- Projection of a persistent user row to its cached snapshot. -/
def toSnapshot (u : User) : UserSnapshot :=
  ⟨u.id, u.username, u.email, u.avatar, u.role⟩

/-- src/database/models.py Contact, reduced to the columns the resolver
touches (primary key and owner). -/
structure ContactRow where
  id : Int
  user_id : Option Int
deriving DecidableEq

/-- src/database/models.py Group, reduced to the columns the resolver
touches. -/
structure GroupRow where
  id : Int
  user_id : Option Int
deriving DecidableEq

/-- The persistent store: users, contacts and groups tables. -/
structure Store where
  users : List User
  contacts : List ContactRow
  groups : List GroupRow
deriving DecidableEq

/-- The redis cache: key, snapshot and absolute expiry instant; a key is
readable strictly before its expiry instant. -/
abbrev Cache := List (String × UserSnapshot × Time)

/-- redis get at time now. -/
def cacheGet : Cache → String → Time → Option UserSnapshot
  | [], _, _ => none
  | (k, snap, expAt) :: rest, key, now =>
      if k = key then (if now < expAt then some snap else none)
      else cacheGet rest key now

/-- redis set followed by expire: overwrite the key with the snapshot and
the new absolute expiry. -/
def cacheSet : Cache → String → UserSnapshot → Time → Cache
  | [], key, snap, expAt => [(key, snap, expAt)]
  | (k, s0, e0) :: rest, key, snap, expAt =>
      if k = key then (key, snap, expAt) :: rest
      else (k, s0, e0) :: cacheSet rest key snap expAt

/-- src/conf/messages.py constants used by the subsystem. -/
def UNVERIFIED_CREDENTIALS : String := "Could not verify credentials"

def INVALID_CREDENTIALS : String := "Wrong email or password"

def INVALID_REFRESH_TOKEN : String := "Invalid or expired refresh token"

def USER_NOT_CONFIRMED : String := "Email address is not confirmed"

def UNEXISTING_TOKEN : String := "Unexisting token for mail confirmation"

def INSUFFICIENT_PERMISSIONS : String := "Insufficient access permissions"

/-- A fastapi HTTPException surfaced at the boundary. -/
structure HTTPError where
  status_code : Nat
  detail : String
deriving DecidableEq

/-- Equality of boundary results is decidable (used to evaluate concrete
runs). -/
instance {ε α : Type} [DecidableEq ε] [DecidableEq α] :
    DecidableEq (Except ε α) := fun
  | .ok a, .ok b =>
    match decEq a b with
    | .isTrue h => .isTrue (h ▸ rfl)
    | .isFalse h => .isFalse (fun hh => h (Except.ok.inj hh))
  | .error e, .error f =>
    match decEq e f with
    | .isTrue h => .isTrue (h ▸ rfl)
    | .isFalse h => .isFalse (fun hh => h (Except.error.inj hh))
  | .ok _, .error _ => .isFalse (fun hh => Except.noConfusion hh)
  | .error _, .ok _ => .isFalse (fun hh => Except.noConfusion hh)

def credentialsException : HTTPError := ⟨401, UNVERIFIED_CREDENTIALS⟩

def invalidCredentialsError : HTTPError := ⟨401, INVALID_CREDENTIALS⟩

def notConfirmedError : HTTPError := ⟨401, USER_NOT_CONFIRMED⟩

def invalidRefreshTokenError : HTTPError := ⟨401, INVALID_REFRESH_TOKEN⟩

def unexistingTokenError : HTTPError := ⟨422, UNEXISTING_TOKEN⟩

def forbiddenError : HTTPError := ⟨403, INSUFFICIENT_PERMISSIONS⟩

/-- src/repository/users.py UserRepository.get_user_by_username: select by
username, additionally filtered by refresh_token when one is supplied (the
python truthiness test on the optional argument maps None to the unfiltered
query).  The username column is unique, so the first match is the single
match.  The UserService wrapper in src/services/users.py is not present in
the sources; Modelled from the spec: the service layer forwards
find_by_username directly to this repository query, with the refresh-token
filter absent unless supplied. -/
def get_user_by_username (db : List User) (username : String)
    (refresh_token : Option Token) : Option User :=
  match refresh_token with
  | some rt =>
      db.find? (fun u => decide (u.username = username) &&
        decide (u.refresh_token = some rt))
  | none => db.find? (fun u => decide (u.username = username))

/-- A query issued against the persistent store during identity
resolution. -/
inductive StoreQuery where
  | selectUserByUsername (username : String)
  | selectContactsByUserId (user_id : Int)
  | selectGroupsByUserId (user_id : Int)
deriving DecidableEq

/-- The identity object returned by the resolver.  On the cache-hit path the
python code rebuilds a User from the snapshot fields plus freshly queried
contacts and groups, leaving hashed_password, refresh_token and confirmed
unset; on the miss path it returns the ORM row, whose relations stay
lazy (not loaded).  Option none models an unset or unloaded attribute. -/
structure AuthUser where
  id : Int
  username : String
  email : String
  avatar : Option String
  role : UserRole
  hashed_password : Option String
  refresh_token : Option Token
  confirmed : Option Bool
  contacts : Option (List Int)
  groups : Option (List Int)
deriving DecidableEq

/-- The resolver identity built from a persistent row (relations not
loaded). -/
def authUserOfDbUser (u : User) : AuthUser :=
  ⟨u.id, u.username, u.email, u.avatar, u.role, some u.hashed_password,
    u.refresh_token, some u.confirmed, none, none⟩

/-- The resolver identity rebuilt from a cache snapshot plus queried
relation rows. -/
def authUserOfSnapshot (s : UserSnapshot) (contacts groups : List Int) :
    AuthUser :=
  ⟨s.id, s.username, s.email, s.avatar, s.role, none, none, none,
    some contacts, some groups⟩

/-- Result of one resolver run: the identity, the cache afterwards, and the
queries issued against the persistent store, in order. -/
structure ResolveOutput where
  user : AuthUser
  cache : Cache
  queries : List StoreQuery
deriving DecidableEq

/-- src/services/auth.py get_current_user: decode the bearer token, require a
sub claim and token_type access, then consult the redis cache; on a hit,
rebuild the identity from the snapshot after querying the contact and group
tables by the snapshot id; on a miss, query the user by username, fail if
absent, otherwise cache the reduced snapshot with the configured TTL. -/
def get_current_user (cfg : Config) (token : Token) (store : Store)
    (cache : Cache) (now : Time) : Except HTTPError ResolveOutput :=
  match jwtDecode token cfg.JWT_SECRET now with
  | none => .error credentialsException
  | some payload =>
    match lookupKey payload "sub" with
    | none => .error credentialsException
    | some username =>
      if lookupKey payload "token_type" ≠ some (.s "access") then
        .error credentialsException
      else
        let key := pyStr username
        match cacheGet cache key now with
        | some snap =>
            let contacts :=
              (store.contacts.filter (fun c => decide (c.user_id = some snap.id))).map
                ContactRow.id
            let groups :=
              (store.groups.filter (fun g => decide (g.user_id = some snap.id))).map
                GroupRow.id
            .ok ⟨authUserOfSnapshot snap contacts groups, cache,
              [.selectContactsByUserId snap.id, .selectGroupsByUserId snap.id]⟩
        | none =>
            match get_user_by_username store.users key none with
            | none => .error credentialsException
            | some user =>
                .ok ⟨authUserOfDbUser user,
                  cacheSet cache key (toSnapshot user)
                    (now + cfg.REDIS_EXPIRATION_TIME),
                  [.selectUserByUsername key]⟩

/-- src/services/auth.py verify_refresh_token: decode, require a sub claim
and token_type refresh, then look the user up by username filtered by the
presented refresh token; returns the row or None (the caller decides). -/
def verify_refresh_token (cfg : Config) (db : List User)
    (refresh_token : Token) (now : Time) : Except HTTPError (Option User) :=
  match jwtDecode refresh_token cfg.JWT_SECRET now with
  | none => .error credentialsException
  | some payload =>
    match lookupKey payload "sub" with
    | none => .error credentialsException
    | some username =>
      if lookupKey payload "token_type" ≠ some (.s "refresh") then
        .error credentialsException
      else .ok (get_user_by_username db (pyStr username) (some refresh_token))

/-- The token pair returned by the login and refresh routes. -/
structure TokenResponse where
  access_token : Token
  refresh_token : Token
  token_type : String
deriving DecidableEq

/-- Commit of user.refresh_token = rt on the row with the given primary
key. -/
def update_refresh_token (db : List User) (uid : Int) (rt : Token) :
    List User :=
  db.map (fun u => if u.id = uid then { u with refresh_token := some rt } else u)

/-- src/api/auth.py login_user: look the user up by username; reject with
invalid-credentials when absent or when the password does not verify against
the stored bcrypt hash (verify_password is the bcrypt check, passed here as
a parameter); reject with not-confirmed when unconfirmed; otherwise mint an
access and a refresh token for the username, persist the refresh token on
the row, and return the pair. -/
def login_user (cfg : Config) (verify_password : String → String → Bool)
    (db : List User) (username password : String) (now : Time) :
    Except HTTPError (TokenResponse × List User) :=
  match get_user_by_username db username none with
  | none => .error invalidCredentialsError
  | some user =>
    if !verify_password password user.hashed_password then
      .error invalidCredentialsError
    else if !user.confirmed then .error notConfirmedError
    else
      let access := create_access_token cfg [("sub", .s user.username)] now none
      let refresh := create_refresh_token cfg [("sub", .s user.username)] now none
      .ok (⟨access, refresh, "bearer"⟩, update_refresh_token db user.id refresh)

/-- src/api/auth.py new_token (the refresh-token route): verify the presented
refresh token; when verification returns no user, fail with
invalid-refresh-token; otherwise mint a fresh pair, persist the new refresh
token on the row, and return the pair. -/
def new_token (cfg : Config) (db : List User) (refresh_token : Token)
    (now : Time) : Except HTTPError (TokenResponse × List User) :=
  match verify_refresh_token cfg db refresh_token now with
  | .error e => .error e
  | .ok none => .error invalidRefreshTokenError
  | .ok (some user) =>
      let access := create_access_token cfg [("sub", .s user.username)] now none
      let refresh := create_refresh_token cfg [("sub", .s user.username)] now none
      .ok (⟨access, refresh, "bearer"⟩, update_refresh_token db user.id refresh)

/-- src/services/auth.py get_email_from_token: decode (any kind accepted; no
token_type check is performed) and return the sub claim, which may be
absent; decode failure surfaces as a 422 unexisting-token error. -/
def get_email_from_token (cfg : Config) (token : Token) (now : Time) :
    Except HTTPError (Option JVal) :=
  match jwtDecode token cfg.JWT_SECRET now with
  | none => .error unexistingTokenError
  | some payload => .ok (lookupKey payload "sub")

/-- src/services/auth.py get_current_admin_user: pass the identity through
when its role is ADMIN, otherwise fail with 403. -/
def get_current_admin_user (current_user : AuthUser) :
    Except HTTPError AuthUser :=
  if current_user.role ≠ UserRole.ADMIN then .error forbiddenError
  else .ok current_user

/-- The success condition for identity resolution as the specification
states it: the token decodes under the process secret (decode already
enforces expiry), the kind claim equals access, and the subject is present
in the cache or in the persistent store.  Stated from the spec wording, to
be compared against the implementation above. -/
def resolveSpecCond (cfg : Config) (token : Token) (store : Store)
    (cache : Cache) (now : Time) : Bool :=
  match jwtDecode token cfg.JWT_SECRET now with
  | none => false
  | some payload =>
    match lookupKey payload "sub" with
    | none => false
    | some subject =>
        decide (lookupKey payload "token_type" = some (.s "access")) &&
        ((cacheGet cache (pyStr subject) now).isSome ||
         (get_user_by_username store.users (pyStr subject) none).isSome)

/-- Looking up the key just written finds the written value. -/
theorem lookupKey_setKey_self (d : Payload) (k : String) (v : JVal) :
    lookupKey (setKey d k v) k = some v := by
  induction d with
  | nil => simp [setKey, lookupKey]
  | cons kv rest ih =>
      obtain ⟨k0, v0⟩ := kv
      by_cases h : k0 = k
      · simp [setKey, h, lookupKey]
      · simp [setKey, h, lookupKey, ih]

/-- Writing one key leaves every other key unchanged. -/
theorem lookupKey_setKey_ne (d : Payload) (k k2 : String) (v : JVal)
    (h : k2 ≠ k) : lookupKey (setKey d k v) k2 = lookupKey d k2 := by
  induction d with
  | nil =>
      have hnk : ¬ k = k2 := fun hh => h hh.symm
      simp [setKey, lookupKey, hnk]
  | cons kv rest ih =>
      obtain ⟨k0, v0⟩ := kv
      by_cases h0 : k0 = k
      · subst h0
        have hnk : ¬ k0 = k2 := fun hh => h hh.symm
        simp [setKey, lookupKey, hnk]
      · by_cases h2 : k0 = k2
        · simp [setKey, h0, lookupKey, h2, h]
        · simp [setKey, h0, lookupKey, h2, ih]

/-- A successful decode returns the payload the token carries. -/
theorem jwtDecode_payload {t : Token} {s : String} {now : Time} {p : Payload}
    (h : jwtDecode t s now = some p) : p = payloadOf t := by
  cases t with
  | malformed r => simp [jwtDecode] at h
  | signed q s0 =>
      have h2 : (if s0 = s then
          (match lookupKey q "exp" with
            | some (JVal.n e) => if e < now then none else some q
            | some (JVal.s _) => none
            | none => some q)
        else none) = some p := h
      by_cases hs : s0 = s
      · rw [if_pos hs] at h2
        cases he : lookupKey q "exp" with
        | none =>
            rw [he] at h2
            have h3 : some q = some p := h2
            exact (Option.some.inj h3).symm
        | some e =>
            rw [he] at h2
            cases e with
            | s v =>
                have h3 : (none : Option Payload) = some p := h2
                exact absurd h3 (by simp)
            | n v =>
                have h3 : (if v < now then none else some q) = some p := h2
                by_cases hlt : v < now
                · rw [if_pos hlt] at h3
                  exact absurd h3 (by simp)
                · rw [if_neg hlt] at h3
                  exact (Option.some.inj h3).symm
      · rw [if_neg hs] at h2
        exact absurd h2 (by simp)

/-- Decoding the same token at two instants yields the same payload. -/
theorem jwtDecode_deterministic {t : Token} {s : String} {n1 n2 : Time}
    {p1 p2 : Payload} (h1 : jwtDecode t s n1 = some p1)
    (h2 : jwtDecode t s n2 = some p2) : p1 = p2 := by
  rw [jwtDecode_payload h1, jwtDecode_payload h2]

/-- Concrete fixture: a process configuration with one-hour access tokens,
seven-day refresh tokens and a 900-second cache TTL. -/
def cfg₀ : Config := ⟨"secret", 3600, 604800, 900⟩

/-- Concrete fixture: bcrypt verification oracle for the fixture digests. -/
def verifyPw₀ : String → String → Bool := fun p h => decide (h = "bcrypt-" ++ p)

/-- Concrete fixture: refresh token for alice issued at instant 0. -/
def rt₀ : Token := create_refresh_token cfg₀ [("sub", .s "alice")] 0 none

/-- Concrete fixture: access token for alice issued at instant 0. -/
def at₀ : Token := create_access_token cfg₀ [("sub", .s "alice")] 0 none

/-- Concrete fixture: a confirmed USER-role identity row holding rt₀. -/
def alice₀ : User :=
  ⟨1, "alice", "alice@example.com", "bcrypt-alice", some rt₀, true, .USER, none⟩

/-- Concrete fixture: the users table. -/
def db₀ : List User := [alice₀]

/-- Concrete fixture: the persistent store with one contact and one group
owned by alice. -/
def store₀ : Store := ⟨db₀, [⟨10, some 1⟩], [⟨20, some 1⟩]⟩

/-- Concrete fixture: refresh token for alice issued at instant 5. -/
def rt₅ : Token := create_refresh_token cfg₀ [("sub", .s "alice")] 5 none

/-- Concrete fixture: access token for alice issued at instant 5. -/
def at₅ : Token := create_access_token cfg₀ [("sub", .s "alice")] 5 none

/-- Concrete fixture: the users table after rotating alice to rt₅. -/
def db₅ : List User := update_refresh_token db₀ 1 rt₅

/-- Concrete fixture: an ADMIN-role resolver identity. -/
def adminUser₀ : AuthUser :=
  ⟨2, "root", "root@example.com", none, .ADMIN, none, none, none, none, none⟩

/-- Concrete fixture: the USER-role resolver identity for alice. -/
def plainUser₀ : AuthUser := authUserOfDbUser alice₀

/-- Concrete fixture: email-confirmation token issued at instant 0. -/
def emailTok₀ : Token := create_email_token cfg₀ [("sub", .s "alice@example.com")] 0

/-- Concrete fixture: an access token whose subject is an email address,
presented at the email-confirmation consumption site. -/
def accessEmailTok₀ : Token :=
  create_access_token cfg₀ [("sub", .s "alice@example.com")] 0 none

/-- Concrete fixture: an unconfirmed identity row. -/
def bob₀ : User :=
  ⟨2, "bob", "bob@example.com", "bcrypt-bob", none, false, .USER, none⟩

/-- Concrete fixture: a users table holding alice and the unconfirmed bob. -/
def dbC₀ : List User := [alice₀, bob₀]

/-- Concrete fixture: the cache after the first resolve of alice at
instant 0. -/
def cache₁ : Cache := [("alice", toSnapshot alice₀, 900)]

/-- Concrete fixture: the resolver output of the second resolve of alice at
instant 10, served from the cache. -/
def secondResolveOut₀ : ResolveOutput :=
  ⟨authUserOfSnapshot (toSnapshot alice₀) [10] [20], cache₁,
    [.selectContactsByUserId 1, .selectGroupsByUserId 1]⟩

/-- A decode of a well-signed token succeeds when its integer exp claim has
not passed. -/
theorem jwtDecode_signed_eq (p : Payload) (s : String) (t : Time) (e : Int)
    (hexp : lookupKey p "exp" = some (.n e)) (hle : ¬ e < t) :
    jwtDecode (Token.signed p s) s t = some p := by
  have h1 : jwtDecode (Token.signed p s) s t =
      (if s = s then
        (match lookupKey p "exp" with
          | some (JVal.n e) => if e < t then none else some p
          | some (JVal.s _) => none
          | none => some p)
      else none) := rfl
  rw [h1, if_pos rfl, hexp]
  show (if e < t then none else some p) = some p
  rw [if_neg hle]

/-- The exp claim of an encoded token payload. -/
theorem tokenClaims_exp (data : Payload) (kind : String) (now : Time)
    (ttl : Int) : lookupKey (tokenClaims data kind now ttl) "exp" =
      some (.n (now + ttl)) := by
  unfold tokenClaims
  rw [lookupKey_setKey_ne _ _ _ _ (by decide),
    lookupKey_setKey_ne _ _ _ _ (by decide), lookupKey_setKey_self]

/-- The iat claim of an encoded token payload. -/
theorem tokenClaims_iat (data : Payload) (kind : String) (now : Time)
    (ttl : Int) : lookupKey (tokenClaims data kind now ttl) "iat" =
      some (.n now) := by
  unfold tokenClaims
  rw [lookupKey_setKey_ne _ _ _ _ (by decide), lookupKey_setKey_self]

/-- The token_type claim of an encoded token payload. -/
theorem tokenClaims_kind (data : Payload) (kind : String) (now : Time)
    (ttl : Int) : lookupKey (tokenClaims data kind now ttl) "token_type" =
      some (.s kind) := by
  unfold tokenClaims
  rw [lookupKey_setKey_self]

/-- Every non-bookkeeping claim of an encoded token payload is the original
one. -/
theorem tokenClaims_other (data : Payload) (kind : String) (now : Time)
    (ttl : Int) (k : String) (h1 : k ≠ "exp") (h2 : k ≠ "iat")
    (h3 : k ≠ "token_type") :
    lookupKey (tokenClaims data kind now ttl) k = lookupKey data k := by
  unfold tokenClaims
  rw [lookupKey_setKey_ne _ _ _ _ h3, lookupKey_setKey_ne _ _ _ _ h2,
    lookupKey_setKey_ne _ _ _ _ h1]

/-- C9: for every identity whose role is ADMIN, require_admin returns the
identity unchanged; for every identity whose role is not ADMIN it fails
with the 403 Forbidden error. -/
theorem require_admin_spec (u : AuthUser) :
    (u.role = UserRole.ADMIN → get_current_admin_user u = .ok u) ∧
    (u.role ≠ UserRole.ADMIN →
      get_current_admin_user u = .error forbiddenError) := by
  constructor
  · intro h; simp [get_current_admin_user, h]
  · intro h; simp [get_current_admin_user, h]

/-- Witness for require_admin_spec: a concrete ADMIN identity passes
through unchanged and a concrete USER identity is rejected. -/
theorem require_admin_spec_witness :
    get_current_admin_user adminUser₀ = .ok adminUser₀ ∧
    get_current_admin_user plainUser₀ = .error forbiddenError :=
  ⟨(require_admin_spec adminUser₀).1 (by decide),
   (require_admin_spec plainUser₀).2 (by decide)⟩

/-- C7: for every claims payload, kind and positive ttl, decoding the
encoding at any time within ttl of issuance succeeds and yields exactly the
original claims: every non-bookkeeping key still maps to its original
value, and the only additions are the iat, exp and kind claims every token
carries. -/
theorem token_round_trip (data : Payload) (kind : String) (ttl : Int)
    (now t : Int) (secret : String) (h0 : 0 < ttl) (h1 : now ≤ t)
    (h2 : t < now + ttl) :
    jwtDecode (create_token data kind now ttl secret) secret t =
      some (tokenClaims data kind now ttl) ∧
    (∀ k, k ≠ "exp" → k ≠ "iat" → k ≠ "token_type" →
      lookupKey (tokenClaims data kind now ttl) k = lookupKey data k) ∧
    lookupKey (tokenClaims data kind now ttl) "token_type" = some (.s kind) ∧
    lookupKey (tokenClaims data kind now ttl) "iat" = some (.n now) ∧
    lookupKey (tokenClaims data kind now ttl) "exp" = some (.n (now + ttl)) := by
  refine ⟨?_, ?_, tokenClaims_kind data kind now ttl,
    tokenClaims_iat data kind now ttl, tokenClaims_exp data kind now ttl⟩
  · exact jwtDecode_signed_eq _ _ t (now + ttl)
      (tokenClaims_exp data kind now ttl) (by omega)
  · intro k hk1 hk2 hk3
    exact tokenClaims_other data kind now ttl k hk1 hk2 hk3

/-- Witness for token_round_trip at a concrete payload, kind access, ttl
3600, issued at 0 and decoded at 5. -/
theorem token_round_trip_witness :
    (0 : Int) < 3600 ∧ (0 : Int) ≤ 5 ∧ (5 : Int) < 0 + 3600 ∧
    jwtDecode (create_token [("sub", JVal.s "alice")] "access" 0 3600
        "secret") "secret" 5 =
      some (tokenClaims [("sub", JVal.s "alice")] "access" 0 3600) :=
  ⟨by decide, by decide, by decide,
   (token_round_trip [("sub", JVal.s "alice")] "access" 3600 0 5 "secret"
     (by decide) (by decide) (by decide)).1⟩

/-- C8 counterexample: the claim that email-confirmation tokens are
structurally identical to access/refresh tokens including the kind claim is
false on a concrete token: the email token issued for a concrete subject
carries no token_type claim at all, while the access and refresh tokens for
the same subject do. -/
theorem email_token_lacks_kind_claim :
    lookupKey (payloadOf emailTok₀) "token_type" = none ∧
    lookupKey (payloadOf accessEmailTok₀) "token_type" =
      some (.s "access") ∧
    lookupKey (payloadOf (create_refresh_token cfg₀
      [("sub", .s "alice@example.com")] 0 none)) "token_type" =
      some (.s "refresh") := by decide

/-- C8 amended: every email-confirmation token for a subject email has a
fixed validity of exactly 7 days (exp = iat + 604800), carries the subject
email plus only the iat and exp bookkeeping claims, is signed with the same
process secret and decodes through the same decode path as session tokens —
but it carries no kind (token_type) claim, so it is not structurally
identical to access/refresh tokens in that field. -/
theorem email_token_structure (cfg : Config) (email : String) (now t : Int)
    (h1 : now ≤ t) (h2 : t ≤ now + 604800) :
    create_email_token cfg [("sub", .s email)] now =
      Token.signed [("sub", .s email), ("iat", .n now),
        ("exp", .n (now + 604800))] cfg.JWT_SECRET ∧
    jwtDecode (create_email_token cfg [("sub", .s email)] now)
        cfg.JWT_SECRET t =
      some [("sub", .s email), ("iat", .n now),
        ("exp", .n (now + 604800))] ∧
    lookupKey (payloadOf (create_email_token cfg [("sub", .s email)] now))
      "token_type" = none ∧
    get_email_from_token cfg (create_email_token cfg [("sub", .s email)] now)
      t = .ok (some (.s email)) := by
  have hform : create_email_token cfg [("sub", JVal.s email)] now =
      Token.signed [("sub", JVal.s email), ("iat", JVal.n now),
        ("exp", JVal.n (now + 604800))] cfg.JWT_SECRET := rfl
  have hexp : lookupKey [("sub", JVal.s email), ("iat", JVal.n now),
      ("exp", JVal.n (now + 604800))] "exp" = some (.n (now + 604800)) := rfl
  have hdec : jwtDecode (create_email_token cfg [("sub", JVal.s email)] now)
      cfg.JWT_SECRET t =
      some [("sub", JVal.s email), ("iat", JVal.n now),
        ("exp", JVal.n (now + 604800))] := by
    rw [hform]
    exact jwtDecode_signed_eq _ _ t (now + 604800) hexp (by omega)
  refine ⟨hform, hdec, by rw [hform]; rfl, ?_⟩
  simp only [get_email_from_token, hdec]
  rfl

/-- Witness for email_token_structure at a concrete email, issued at 0 and
inspected at 60480. -/
theorem email_token_structure_witness :
    (0 : Int) ≤ 60480 ∧ (60480 : Int) ≤ 0 + 604800 ∧
    lookupKey (payloadOf (create_email_token cfg₀
      [("sub", .s "alice@example.com")] 0)) "token_type" = none :=
  ⟨by decide, by decide,
   (email_token_structure cfg₀ "alice@example.com" 0 60480 (by decide)
     (by decide)).2.2.1⟩

/-- C10: a token minted by the email-confirmation issuer (whose data carries
no token_type claim) is, at every instant before its 7-day expiry, rejected
by both access-token resolution and refresh-token verification with the
unverified-credentials error, for every store, cache and users table. -/
theorem email_token_rejected_as_session_token (cfg : Config) (data : Payload)
    (now t : Int) (store : Store) (cache : Cache) (db : List User)
    (hno : lookupKey data "token_type" = none) (h1 : now ≤ t)
    (h2 : t < now + 604800) :
    get_current_user cfg (create_email_token cfg data now) store cache t =
      .error credentialsException ∧
    verify_refresh_token cfg db (create_email_token cfg data now) t =
      .error credentialsException := by
  have hform : create_email_token cfg data now =
      Token.signed (setKey (setKey data "iat" (.n now)) "exp"
        (.n (now + 604800))) cfg.JWT_SECRET := rfl
  have hexp : lookupKey (setKey (setKey data "iat" (.n now)) "exp"
      (.n (now + 604800))) "exp" = some (.n (now + 604800)) :=
    lookupKey_setKey_self _ _ _
  have hdec : jwtDecode (create_email_token cfg data now) cfg.JWT_SECRET t =
      some (setKey (setKey data "iat" (.n now)) "exp"
        (.n (now + 604800))) := by
    rw [hform]
    exact jwtDecode_signed_eq _ _ t (now + 604800) hexp (by omega)
  have hkind : lookupKey (setKey (setKey data "iat" (.n now)) "exp"
      (.n (now + 604800))) "token_type" = none := by
    rw [lookupKey_setKey_ne _ _ _ _ (by decide),
      lookupKey_setKey_ne _ _ _ _ (by decide)]
    exact hno
  constructor
  · simp only [get_current_user, hdec]
    cases hsub : lookupKey (setKey (setKey data "iat" (.n now)) "exp"
        (.n (now + 604800))) "sub" <;> simp [hsub, hkind]
  · simp only [verify_refresh_token, hdec]
    cases hsub : lookupKey (setKey (setKey data "iat" (.n now)) "exp"
        (.n (now + 604800))) "sub" <;> simp [hsub, hkind]

/-- Witness for email_token_rejected_as_session_token at the concrete
fixture token, presented at instant 5. -/
theorem email_token_rejected_as_session_token_witness :
    lookupKey [("sub", JVal.s "alice@example.com")] "token_type" = none ∧
    (0 : Int) ≤ 5 ∧ (5 : Int) < 0 + 604800 ∧
    (get_current_user cfg₀ (create_email_token cfg₀
        [("sub", .s "alice@example.com")] 0) store₀ [] 5 =
      .error credentialsException ∧
    verify_refresh_token cfg₀ db₀ (create_email_token cfg₀
        [("sub", .s "alice@example.com")] 0) 5 =
      .error credentialsException) :=
  ⟨by decide, by decide, by decide,
   email_token_rejected_as_session_token cfg₀
     [("sub", .s "alice@example.com")] 0 5 store₀ [] db₀ (by decide)
     (by decide) (by decide)⟩

/-- C4 counterexample: a validly signed, unexpired token of kind access,
presented at the email-confirmation consumption site, is accepted (its
subject is returned) rather than rejected, so the claim that every decode
site rejects a kind mismatch is false. -/
theorem email_site_accepts_access_kind :
    jwtDecode accessEmailTok₀ cfg₀.JWT_SECRET 5 =
      some (payloadOf accessEmailTok₀) ∧
    lookupKey (payloadOf accessEmailTok₀) "token_type" =
      some (.s "access") ∧
    get_email_from_token cfg₀ accessEmailTok₀ 5 =
      .ok (some (.s "alice@example.com")) := by decide

/-- C4 amended: the access-token resolution and refresh-token verification
sites reject a decoded token whose kind claim is not the one they expect,
failing with the unverified-credentials error; the email-confirmation
consumption site performs no kind check at all and returns the subject of
any token that decodes. -/
theorem kind_checks_at_decode_sites (cfg : Config) (token : Token)
    (store : Store) (cache : Cache) (db : List User) (now : Int)
    (p : Payload) :
    (jwtDecode token cfg.JWT_SECRET now = some p →
      lookupKey p "token_type" ≠ some (.s "access") →
      get_current_user cfg token store cache now =
        .error credentialsException) ∧
    (jwtDecode token cfg.JWT_SECRET now = some p →
      lookupKey p "token_type" ≠ some (.s "refresh") →
      verify_refresh_token cfg db token now =
        .error credentialsException) ∧
    (jwtDecode token cfg.JWT_SECRET now = some p →
      get_email_from_token cfg token now = .ok (lookupKey p "sub")) := by
  refine ⟨?_, ?_, ?_⟩
  · intro hdec hk
    simp only [get_current_user, hdec]
    cases hsub : lookupKey p "sub" <;> simp [hsub, hk]
  · intro hdec hk
    simp only [verify_refresh_token, hdec]
    cases hsub : lookupKey p "sub" <;> simp [hsub, hk]
  · intro hdec
    simp only [get_email_from_token, hdec]

/-- Witness for kind_checks_at_decode_sites: a refresh token is rejected at
the access site, an access token is rejected at the refresh site, and an
access token is accepted at the email site. -/
theorem kind_checks_at_decode_sites_witness :
    get_current_user cfg₀ rt₀ store₀ [] 5 = .error credentialsException ∧
    verify_refresh_token cfg₀ db₀ at₀ 5 = .error credentialsException ∧
    get_email_from_token cfg₀ accessEmailTok₀ 5 =
      .ok (lookupKey (payloadOf accessEmailTok₀) "sub") :=
  ⟨(kind_checks_at_decode_sites cfg₀ rt₀ store₀ [] db₀ 5
      (payloadOf rt₀)).1 (by decide) (by decide),
   (kind_checks_at_decode_sites cfg₀ at₀ store₀ [] db₀ 5
      (payloadOf at₀)).2.1 (by decide) (by decide),
   (kind_checks_at_decode_sites cfg₀ accessEmailTok₀ store₀ [] db₀ 5
      (payloadOf accessEmailTok₀)).2.2 (by decide)⟩

/-- C2: identity resolution succeeds exactly when the token decodes under
the process secret (expiry included), its kind claim is access, and its
subject is present in the cache or in the persistent store; in every other
case it fails with the unverified-credentials (401) error. -/
theorem resolve_ok_iff_spec (cfg : Config) (token : Token) (store : Store)
    (cache : Cache) (now : Int) :
    Except.isOk (get_current_user cfg token store cache now) =
      resolveSpecCond cfg token store cache now ∧
    (resolveSpecCond cfg token store cache now = false →
      get_current_user cfg token store cache now =
        .error credentialsException) := by
  cases hdec : jwtDecode token cfg.JWT_SECRET now with
  | none => simp [get_current_user, resolveSpecCond, hdec, Except.isOk, Except.toBool]
  | some payload =>
    cases hsub : lookupKey payload "sub" with
    | none =>
        simp [get_current_user, resolveSpecCond, hdec, hsub, Except.isOk, Except.toBool]
    | some subject =>
      by_cases hkind : lookupKey payload "token_type" = some (.s "access")
      · cases hc : cacheGet cache (pyStr subject) now with
        | some snap =>
            simp [get_current_user, resolveSpecCond, hdec, hsub, hkind, hc,
              Except.isOk, Except.toBool]
        | none =>
          cases hu : get_user_by_username store.users (pyStr subject) none with
          | none =>
              simp [get_current_user, resolveSpecCond, hdec, hsub, hkind, hc,
                hu, Except.isOk, Except.toBool]
          | some u =>
              simp [get_current_user, resolveSpecCond, hdec, hsub, hkind, hc,
                hu, Except.isOk, Except.toBool]
      · simp [get_current_user, resolveSpecCond, hdec, hsub, hkind,
          Except.isOk, Except.toBool]

/-- Witness for resolve_ok_iff_spec: a malformed bearer string fails the
spec condition and resolution returns the unverified-credentials error. -/
theorem resolve_ok_iff_spec_witness :
    resolveSpecCond cfg₀ (Token.malformed "zzz") store₀ [] 0 = false ∧
    get_current_user cfg₀ (Token.malformed "zzz") store₀ [] 0 =
      .error credentialsException :=
  ⟨by decide,
   (resolve_ok_iff_spec cfg₀ (Token.malformed "zzz") store₀ [] 0).2
     (by decide)⟩

/-- C3: login succeeds exactly when the user exists, the presented password
verifies against the stored hash and the identity is confirmed; a missing
user or a failing password verification gives the invalid-credentials
error, and a verifying password on an unconfirmed identity gives the
not-confirmed error. -/
theorem login_spec (cfg : Config) (verify_password : String → String → Bool)
    (db : List User) (username password : String) (now : Int) :
    (Except.isOk (login_user cfg verify_password db username password now) =
        true ↔
      ∃ u, get_user_by_username db username none = some u ∧
        verify_password password u.hashed_password = true ∧
        u.confirmed = true) ∧
    (get_user_by_username db username none = none →
      login_user cfg verify_password db username password now =
        .error invalidCredentialsError) ∧
    (∀ u, get_user_by_username db username none = some u →
      verify_password password u.hashed_password = false →
      login_user cfg verify_password db username password now =
        .error invalidCredentialsError) ∧
    (∀ u, get_user_by_username db username none = some u →
      verify_password password u.hashed_password = true →
      u.confirmed = false →
      login_user cfg verify_password db username password now =
        .error notConfirmedError) := by
  cases hu : get_user_by_username db username none with
  | none => simp [login_user, hu, Except.isOk, Except.toBool]
  | some u =>
    cases hv : verify_password password u.hashed_password with
    | false => simp [login_user, hu, hv, Except.isOk, Except.toBool]
    | true =>
      cases hc : u.confirmed with
      | false => simp [login_user, hu, hv, hc, Except.isOk, Except.toBool]
      | true => simp [login_user, hu, hv, hc, Except.isOk, Except.toBool]

/-- Witness for login_spec: a verifying password on the concrete unconfirmed
identity bob yields the not-confirmed error. -/
theorem login_spec_witness :
    get_user_by_username dbC₀ "bob" none = some bob₀ ∧
    verifyPw₀ "bob" bob₀.hashed_password = true ∧
    bob₀.confirmed = false ∧
    login_user cfg₀ verifyPw₀ dbC₀ "bob" "bob" 0 =
      .error notConfirmedError :=
  ⟨by decide, by decide, by decide,
   (login_spec cfg₀ verifyPw₀ dbC₀ "bob" "bob" 0).2.2.2 bob₀ (by decide)
     (by decide) (by decide)⟩

/-- C5 counterexample: on the concrete fixture, the first resolve populates
the cache with a TTL-bounded snapshot, but the second resolve within the
TTL, although served from the cache hit, still issues two queries against
the persistent store (the contact and group relation loads), so the claim
that it issues no store query is false. -/
theorem cache_hit_still_queries_store :
    get_current_user cfg₀ at₀ store₀ [] 0 =
      .ok ⟨authUserOfDbUser alice₀, cache₁,
        [.selectUserByUsername "alice"]⟩ ∧
    get_current_user cfg₀ at₀ store₀ cache₁ 10 = .ok secondResolveOut₀ ∧
    secondResolveOut₀.queries =
      [.selectContactsByUserId 1, .selectGroupsByUserId 1] ∧
    secondResolveOut₀.queries ≠ ([] : List StoreQuery) := by decide

/-- C5 amended: when resolution succeeds, a cache hit serves the identity
from the snapshot without any user-by-username store query but still issues
the two relation-loading store queries (contacts and groups by the snapshot
id) and leaves the cache unchanged, while a cache miss issues exactly the
user-by-username query and populates the cache with the TTL-bounded
snapshot of the user found. -/
theorem cache_population_and_hit_queries (cfg : Config) (token : Token)
    (store : Store) (cache : Cache) (now : Int) (p : Payload)
    (subject : JVal) (out : ResolveOutput)
    (hdec : jwtDecode token cfg.JWT_SECRET now = some p)
    (hsub : lookupKey p "sub" = some subject)
    (hok : get_current_user cfg token store cache now = .ok out) :
    (∀ snap, cacheGet cache (pyStr subject) now = some snap →
      out.queries = [.selectContactsByUserId snap.id,
        .selectGroupsByUserId snap.id] ∧
      out.cache = cache) ∧
    (cacheGet cache (pyStr subject) now = none →
      ∃ u, get_user_by_username store.users (pyStr subject) none = some u ∧
        out.queries = [.selectUserByUsername (pyStr subject)] ∧
        out.cache = cacheSet cache (pyStr subject) (toSnapshot u)
          (now + cfg.REDIS_EXPIRATION_TIME)) := by
  simp only [get_current_user, hdec, hsub] at hok
  by_cases hkind : lookupKey p "token_type" = some (.s "access")
  · simp only [hkind, ne_eq, not_true_eq_false, if_false, ite_false] at hok
    cases hc : cacheGet cache (pyStr subject) now with
    | some snap =>
        rw [hc] at hok
        have he := Except.ok.inj hok
        constructor
        · intro snap2 hc2
          have hs2 : snap = snap2 := Option.some.inj hc2
          subst hs2
          subst he
          exact ⟨rfl, rfl⟩
        · intro hc0
          exact absurd hc0 (by simp)
    | none =>
        rw [hc] at hok
        cases hu : get_user_by_username store.users (pyStr subject) none with
        | none => rw [hu] at hok; exact absurd hok (by simp)
        | some u =>
            rw [hu] at hok
            have he := Except.ok.inj hok
            subst he
            constructor
            · intro snap2 hc2
              exact absurd hc2 (by simp)
            · intro hc0
              exact ⟨u, rfl, rfl, rfl⟩
  · exfalso
    rw [if_pos hkind] at hok
    exact absurd hok (by simp)

/-- Witness for cache_population_and_hit_queries: the second resolve of
alice within the cache TTL is a cache hit whose store queries are exactly
the two relation loads and whose cache is unchanged. -/
theorem cache_population_and_hit_queries_witness :
    jwtDecode at₀ cfg₀.JWT_SECRET 10 = some (payloadOf at₀) ∧
    lookupKey (payloadOf at₀) "sub" = some (.s "alice") ∧
    get_current_user cfg₀ at₀ store₀ cache₁ 10 = .ok secondResolveOut₀ ∧
    cacheGet cache₁ (pyStr (.s "alice")) 10 = some (toSnapshot alice₀) ∧
    (secondResolveOut₀.queries =
      [.selectContactsByUserId (toSnapshot alice₀).id,
        .selectGroupsByUserId (toSnapshot alice₀).id] ∧
     secondResolveOut₀.cache = cache₁) :=
  ⟨by decide, by decide, by decide, by decide,
   (cache_population_and_hit_queries cfg₀ at₀ store₀ cache₁ 10
      (payloadOf at₀) (.s "alice") secondResolveOut₀ (by decide) (by decide)
      (by decide)).1 (toSnapshot alice₀) (by decide)⟩

/-- Every row of the committed table whose primary key is the updated one
carries the newly minted refresh token. -/
theorem mem_update_refresh_token {db : List User} {uid : Int} {rt : Token}
    {w : User} (hw : w ∈ update_refresh_token db uid rt)
    (hid : w.id = uid) : w.refresh_token = some rt := by
  unfold update_refresh_token at hw
  obtain ⟨y, hy, hwy⟩ := List.mem_map.mp hw
  by_cases h : y.id = uid
  · rw [if_pos h] at hwy
    subst hwy
    rfl
  · rw [if_neg h] at hwy
    subst hwy
    exact absurd hid h

/-- C6: every successful login and every successful refresh overwrites the
found identity's stored refresh-token field with the newly minted refresh
token — the committed table is exactly the input table with that one field
overwritten, and every row with the identity's primary key now carries the
new token. -/
theorem refresh_token_overwrite_invariant (cfg : Config)
    (verify_password : String → String → Bool) (db : List User)
    (username password : String) (rt : Token) (now : Int)
    (resp : TokenResponse) (db2 : List User) :
    (login_user cfg verify_password db username password now =
        .ok (resp, db2) →
      ∃ u, get_user_by_username db username none = some u ∧
        resp.refresh_token =
          create_refresh_token cfg [("sub", .s u.username)] now none ∧
        db2 = update_refresh_token db u.id resp.refresh_token ∧
        ∀ w ∈ db2, w.id = u.id →
          w.refresh_token = some resp.refresh_token) ∧
    (new_token cfg db rt now = .ok (resp, db2) →
      ∃ u, verify_refresh_token cfg db rt now = .ok (some u) ∧
        resp.refresh_token =
          create_refresh_token cfg [("sub", .s u.username)] now none ∧
        db2 = update_refresh_token db u.id resp.refresh_token ∧
        ∀ w ∈ db2, w.id = u.id →
          w.refresh_token = some resp.refresh_token) := by
  constructor
  · intro h
    cases hu : get_user_by_username db username none with
    | none => rw [login_user, hu] at h; exact absurd h (by simp)
    | some u =>
      cases hv : verify_password password u.hashed_password with
      | false => simp [login_user, hu, hv] at h
      | true =>
        cases hc : u.confirmed with
        | false => simp [login_user, hu, hv, hc] at h
        | true =>
          simp only [login_user, hu, hv, hc, Bool.not_true, Bool.not_false,
            if_false, ite_false] at h
          have h2 := Except.ok.inj h
          injection h2 with h3 h4
          subst h3
          subst h4
          exact ⟨u, rfl, rfl, rfl,
            fun w hw hid => mem_update_refresh_token hw hid⟩
  · intro h
    cases hv : verify_refresh_token cfg db rt now with
    | error e => rw [new_token, hv] at h; exact absurd h (by simp)
    | ok ou =>
      cases ou with
      | none => rw [new_token, hv] at h; exact absurd h (by simp)
      | some u =>
          rw [new_token, hv] at h
          have h2 := Except.ok.inj h
          injection h2 with h3 h4
          subst h3
          subst h4
          exact ⟨u, rfl, rfl, rfl,
            fun w hw hid => mem_update_refresh_token hw hid⟩

/-- Witness for refresh_token_overwrite_invariant: the concrete login of
alice at instant 0 mints rt₀ and the committed table stores exactly rt₀ on
her row. -/
theorem refresh_token_overwrite_invariant_witness :
    login_user cfg₀ verifyPw₀ db₀ "alice" "alice" 0 =
      .ok (⟨at₀, rt₀, "bearer"⟩, db₀) ∧
    (∃ u, get_user_by_username db₀ "alice" none = some u ∧
      (TokenResponse.mk at₀ rt₀ "bearer").refresh_token =
        create_refresh_token cfg₀ [("sub", .s u.username)] 0 none ∧
      db₀ = update_refresh_token db₀ u.id
        (TokenResponse.mk at₀ rt₀ "bearer").refresh_token ∧
      ∀ w ∈ db₀, w.id = u.id →
        w.refresh_token =
          some (TokenResponse.mk at₀ rt₀ "bearer").refresh_token) :=
  ⟨by decide,
   (refresh_token_overwrite_invariant cfg₀ verifyPw₀ db₀ "alice" "alice"
     rt₀ 0 ⟨at₀, rt₀, "bearer"⟩ db₀).1 (by decide)⟩

/-- C1 counterexample: a refresh executed at the same integer second as the
issuance of rt₀ mints a payload identical to rt₀'s, and deterministic HS256
signing makes the newly produced refresh token the very same token string.
The refresh succeeds, the stored refresh token is overwritten with the
produced token (leaving the table unchanged), rt₀ is unexpired and still
decodes with kind refresh — and yet a subsequent refresh presenting rt₀
succeeds again instead of failing with the invalid-refresh-token error. -/
theorem same_instant_refresh_reuse_accepted :
    new_token cfg₀ db₀ rt₀ 0 = .ok (⟨at₀, rt₀, "bearer"⟩, db₀) ∧
    jwtDecode rt₀ cfg₀.JWT_SECRET 0 = some (payloadOf rt₀) ∧
    lookupKey (payloadOf rt₀) "token_type" = some (.s "refresh") ∧
    new_token cfg₀ db₀ rt₀ 0 ≠ .error invalidRefreshTokenError ∧
    Except.isOk (new_token cfg₀ db₀ rt₀ 0) = true := by decide

/-- C1 amended: after a successful refresh of rt1 whose newly minted
refresh token differs from rt1 (in particular whenever the two issuance
timestamps differ, since a token is determined by its payload), a
subsequent refresh presenting rt1 fails with the invalid-refresh-token
error, even when rt1 is unexpired and still decodes with kind refresh; the
users table is assumed to satisfy the unique-username constraint of the
schema. -/
theorem superseded_refresh_token_rejected (cfg : Config) (db : List User)
    (rt1 : Token) (t1 t2 : Int) (resp : TokenResponse) (db2 : List User)
    (p : Payload) (sv : JVal)
    (hndup : (db.map User.username).Nodup)
    (h1 : new_token cfg db rt1 t1 = .ok (resp, db2))
    (hne : resp.refresh_token ≠ rt1)
    (hdec : jwtDecode rt1 cfg.JWT_SECRET t2 = some p)
    (hsub : lookupKey p "sub" = some sv)
    (hkind : lookupKey p "token_type" = some (.s "refresh")) :
    new_token cfg db2 rt1 t2 = .error invalidRefreshTokenError := by
  cases hv : verify_refresh_token cfg db rt1 t1 with
  | error e => rw [new_token, hv] at h1; exact absurd h1 (by simp)
  | ok ou =>
    cases ou with
    | none => rw [new_token, hv] at h1; exact absurd h1 (by simp)
    | some u =>
      rw [new_token, hv] at h1
      have h2 := Except.ok.inj h1
      injection h2 with h3 h4
      subst h3
      subst h4
      cases hd1 : jwtDecode rt1 cfg.JWT_SECRET t1 with
      | none => rw [verify_refresh_token, hd1] at hv; exact absurd hv (by simp)
      | some p1 =>
        have hp1 : p1 = p := jwtDecode_deterministic hd1 hdec
        subst hp1
        simp only [verify_refresh_token, hd1, hsub, hkind] at hv
        rw [if_neg (by simp)] at hv
        have hfind : get_user_by_username db (pyStr sv) (some rt1) = some u :=
          Except.ok.inj hv
        rw [get_user_by_username] at hfind
        have humem : u ∈ db := List.mem_of_find?_eq_some hfind
        have hupred := List.find?_some hfind
        simp only [Bool.and_eq_true, decide_eq_true_eq] at hupred
        obtain ⟨huname, hurt⟩ := hupred
        have hnone : get_user_by_username
            (update_refresh_token db u.id
              (create_refresh_token cfg [("sub", .s u.username)] t1 none))
            (pyStr sv) (some rt1) = none := by
          rw [get_user_by_username]
          apply List.find?_eq_none.mpr
          intro x hx
          unfold update_refresh_token at hx
          obtain ⟨y, hy, hxy⟩ := List.mem_map.mp hx
          by_cases hyid : y.id = u.id
          · rw [if_pos hyid] at hxy
            subst hxy
            simp only [Bool.and_eq_true, decide_eq_true_eq, not_and]
            intro _ hcontra
            exact hne (Option.some.inj hcontra)
          · rw [if_neg hyid] at hxy
            subst hxy
            simp only [Bool.and_eq_true, decide_eq_true_eq, not_and]
            intro hyname hyrt
            have hyu : y = u :=
              List.inj_on_of_nodup_map hndup hy humem
                (by rw [hyname, huname])
            exact hyid (by rw [hyu])
        have hv2 : verify_refresh_token cfg
            (update_refresh_token db u.id
              (create_refresh_token cfg [("sub", .s u.username)] t1 none))
            rt1 t2 = .ok none := by
          simp only [verify_refresh_token, hdec, hsub, hkind]
          rw [if_neg (by simp), hnone]
        rw [new_token, hv2]

/-- Witness for superseded_refresh_token_rejected: a refresh of rt₀ at
instant 5 rotates alice to the distinct token rt₅, after which refreshing
with rt₀ at instant 6 fails with the invalid-refresh-token error. -/
theorem superseded_refresh_token_rejected_witness :
    (db₀.map User.username).Nodup ∧
    new_token cfg₀ db₀ rt₀ 5 = .ok (⟨at₅, rt₅, "bearer"⟩, db₅) ∧
    (TokenResponse.mk at₅ rt₅ "bearer").refresh_token ≠ rt₀ ∧
    jwtDecode rt₀ cfg₀.JWT_SECRET 6 = some (payloadOf rt₀) ∧
    lookupKey (payloadOf rt₀) "sub" = some (.s "alice") ∧
    lookupKey (payloadOf rt₀) "token_type" = some (.s "refresh") ∧
    new_token cfg₀ db₅ rt₀ 6 = .error invalidRefreshTokenError :=
  ⟨by decide, by decide, by decide, by decide, by decide, by decide,
   superseded_refresh_token_rejected cfg₀ db₀ rt₀ 5 6
     ⟨at₅, rt₅, "bearer"⟩ db₅ (payloadOf rt₀) (.s "alice") (by decide)
     (by decide) (by decide) (by decide) (by decide) (by decide)⟩

end ContactsAuth
